import Mathlib

/-!
Verification of the Provider Orchestration Engine
(`src/services/real_search_orchestrator.py` and `src/services/enhanced_ai_manager.py`).

The Python code is shallowly embedded: network adapters are abstracted into the
normalized outcome values they hand back to the orchestration layer (one outcome
per launched call, exactly what `asyncio.gather(..., return_exceptions=True)`
yields), and every state-mutating routine is modelled as an explicit
state-passing function.  Numbers that Python treats as `int`/`float` are
modelled as `Int`/`Rat` (all arithmetic in these routines is exact: integer
sums, products and one division by a decimal constant).
-/

namespace Orchestrator

/-- A normalized search record, as built by the provider adapters
(`title`/`url`/`snippet`/`content` default to `""` when the Python dict lacks
the key, mirroring `result.get(key, '')`); `viralScore` is `none` when the
record carries no `viral_score` key, mirroring `x.get('viral_score', 0)`. -/
structure SearchRecord where
  title : String
  url : String
  snippet : String
  content : String
  viralScore : Option ℚ
  deriving DecidableEq, Repr

/-- Prefix test on character lists. -/
def listIsPrefix : List Char → List Char → Bool
  | [], _ => true
  | _ :: _, [] => false
  | a :: as, b :: bs => a == b && listIsPrefix as bs

/-- Occurrence test of `needle` at any position of `hay`. -/
def listIsSub : List Char → List Char → Bool
  | needle, [] => listIsPrefix needle []
  | needle, b :: rest => listIsPrefix needle (b :: rest) || listIsSub needle rest

/-- Substring test on strings, the embedding of Python's `needle in hay`. -/
def strContains (hay needle : String) : Bool :=
  listIsSub needle.data hay.data

/-- Python's `str.lower()` (the blocklist markers and the record fields it is
applied to are ASCII, where `Char.toLower` agrees with Python). -/
def toLowerStr (s : String) : String :=
  ⟨s.data.map Char.toLower⟩

/-- The fixed anti-simulation blocklist of `execute_massive_real_search`
(lines 276-279).  Note that the first marker in the source is the Portuguese
word `"exemplo"`, not `"example"`. -/
def blocklist : List String :=
  ["exemplo", "sample", "test", "mock", "demo", "placeholder",
   "lorem ipsum", "fake", "dummy", "template"]

/-- The anti-simulation predicate of `execute_massive_real_search` lines
271-279: lower-case the record's title, content and url, concatenate them, and
look for any blocklist marker in the concatenation. -/
def isSimulated (r : SearchRecord) : Bool :=
  blocklist.any fun w =>
    strContains (toLowerStr r.title ++ toLowerStr r.content ++ toLowerStr r.url) w

/-- One entry of the list returned by `asyncio.gather(..., return_exceptions=True)`
over the adapter calls: either the exception the adapter task raised, or the
adapter's normalized `{success, platform?, results}` dict. -/
inductive Outcome where
  | exn
  | res (success : Bool) (platform : Option String) (records : List SearchRecord)
  deriving DecidableEq, Repr

/-- Phase-2 collection loop of `execute_massive_real_search` (lines 205-212):
exceptions are skipped, and a web outcome contributes its records only when it
is successful and its record list is non-empty (Python truthiness of
`result.get('success') and result.get('results')`); contributions are
concatenated in outcome order. -/
def collectWeb : List Outcome → List SearchRecord
  | [] => []
  | .exn :: rest => collectWeb rest
  | .res success _ records :: rest =>
    if success && !records.isEmpty then records ++ collectWeb rest
    else collectWeb rest

/-- Phase-3 collection loop of `execute_massive_real_search` (lines 230-239):
exceptions are skipped; a successful outcome whose `platform` is `'youtube'`
extends the youtube list, any other successful outcome extends the social
list.  Returns `(youtube_results, social_results)`, contributions in outcome
order. -/
def collectSocial : List Outcome → List SearchRecord × List SearchRecord
  | [] => ([], [])
  | .exn :: rest => collectSocial rest
  | .res success platform records :: rest =>
    let acc := collectSocial rest
    if success then
      if platform = some "youtube" then (records ++ acc.1, acc.2)
      else (acc.1, records ++ acc.2)
    else acc

/-- Sort key of `_identify_viral_content`: `x.get('viral_score', 0)`. -/
def viralKey (r : SearchRecord) : ℚ :=
  r.viralScore.getD 0

/-- Python's `sorted(key=lambda x: x.get('viral_score', 0), reverse=True)`:
a stable descending sort, i.e. an insertion sort that inserts each element
before the first element with a key less than or equal to its own. -/
def sortByViralDesc (rs : List SearchRecord) : List SearchRecord :=
  List.insertionSort (fun a b => viralKey b ≤ viralKey a) rs

/-- Selection loop of `_identify_viral_content` (lines 1119-1123): walk the
sorted list, keeping a record when its url is non-empty, its url was not seen
before, and fewer than 10 records have been kept so far.  `seen` is the set of
already-kept urls and `k` the number of records kept so far. -/
def pickViral (seen : List String) (k : Nat) : List SearchRecord → List SearchRecord
  | [] => []
  | r :: rest =>
    if r.url ≠ "" ∧ r.url ∉ seen ∧ k < 10 then
      r :: pickViral (r.url :: seen) (k + 1) rest
    else
      pickViral seen k rest

/-- `_identify_viral_content` (lines 1102-1126): on an empty input return `[]`;
otherwise sort by viral score descending and keep the top 10 records with
distinct non-empty urls. -/
def identifyViralContent (rs : List SearchRecord) : List SearchRecord :=
  if rs.isEmpty then []
  else pickViral [] 0 (sortByViralDesc rs)

/-- The fan-out outcomes feeding one `execute_massive_real_search` call:
the phase-1 Alibaba WebSailor outcome (its wrapper never raises: it catches
every exception and returns a `{success: False}` dict) and the gathered
phase-2 web and phase-3 social outcome lists. -/
structure FanoutInput where
  websailor : Outcome
  webOuts : List Outcome
  socialOuts : List Outcome
  deriving Repr

/-- Phase-1 contribution (lines 172-174): `web_results.extend(...)` only when
the WebSailor outcome is successful. -/
def websailorRecords : Outcome → List SearchRecord
  | .exn => []
  | .res success _ records => if success then records else []

/-- The full pre-filter web list of one search call: WebSailor records followed
by the phase-2 contributions. -/
def fanWeb (inp : FanoutInput) : List SearchRecord :=
  websailorRecords inp.websailor ++ collectWeb inp.webOuts

/-- The pre-filter youtube list of one search call. -/
def fanYoutube (inp : FanoutInput) : List SearchRecord :=
  (collectSocial inp.socialOuts).1

/-- The pre-filter social list of one search call. -/
def fanSocial (inp : FanoutInput) : List SearchRecord :=
  (collectSocial inp.socialOuts).2

/-- The aggregated result of one search call (the statistics are computed at
lines 255-266, before the anti-simulation filter at lines 268-285). -/
structure AggregatedResult where
  query : String
  webResults : List SearchRecord
  socialResults : List SearchRecord
  youtubeResults : List SearchRecord
  viralContent : List SearchRecord
  totalSources : Nat
  uniqueUrls : Nat
  contentExtracted : Nat
  deriving Repr

/-- `all_results` of line 257: web, social then youtube pre-filter records. -/
def allFanResults (inp : FanoutInput) : List SearchRecord :=
  fanWeb inp ++ fanSocial inp ++ fanYoutube inp

/-- `real_results` of lines 269-280: the pre-filter records surviving the
anti-simulation blocklist. -/
def realResults (inp : FanoutInput) : List SearchRecord :=
  (allFanResults inp).filter fun r => !isSimulated r

/-- The aggregation phase of `execute_massive_real_search` (lines 241-296),
over the outcomes delivered by the fan-out: viral identification on the
pre-filter youtube+social records, statistics on the pre-filter record lists
(`unique_urls` is the size of the set of non-empty urls), then the
anti-simulation filter `[r for r in bucket if r in real_results]` applied to
the web, social and youtube buckets (but not to `viral_content`). -/
def executeMassiveRealSearch (query : String) (inp : FanoutInput) : AggregatedResult :=
  { query := query
    webResults := (fanWeb inp).filter fun r => decide (r ∈ realResults inp)
    socialResults := (fanSocial inp).filter fun r => decide (r ∈ realResults inp)
    youtubeResults := (fanYoutube inp).filter fun r => decide (r ∈ realResults inp)
    viralContent := identifyViralContent (fanYoutube inp ++ fanSocial inp)
    totalSources := (allFanResults inp).length
    uniqueUrls :=
      (((allFanResults inp).filterMap fun r =>
        if r.url ≠ "" then some r.url else none).dedup).length
    contentExtracted := ((allFanResults inp).map fun r => r.content.length).sum }

/-- Per-provider credential pool state: the ordered key list from
`_load_all_api_keys` plus the rotation cursor of `self.key_indices`.  A
provider missing from `self.api_keys` is modelled by an empty `keys` list. -/
structure KeyState where
  keys : List String
  index : Nat
  deriving DecidableEq, Repr

/-- `get_next_api_key` (lines 114-134): `none` and no state change when the
provider has no keys; otherwise return the key at the cursor and advance the
cursor by one modulo the pool size. -/
def getNextApiKey (s : KeyState) : Option String × KeyState :=
  if s.keys.isEmpty then (none, s)
  else (s.keys.get? s.index, { keys := s.keys, index := (s.index + 1) % s.keys.length })

/-- Repeatedly call `get_next_api_key`, returning the list of keys handed out. -/
def runKeyCalls (s : KeyState) : Nat → List (Option String) × KeyState
  | 0 => ([], s)
  | n + 1 =>
    let (k, s') := getNextApiKey s
    let (ks, s'') := runKeyCalls s' n
    (k :: ks, s'')

/-- `_calculate_viral_score` (lines 1265-1279), the video-platform formula:
`min(10, (views + likes*10 + comments*20) / 100000)`.  The inputs are the
integer metrics parsed from the provider response; no clamping is applied. -/
def calculateViralScore (views likes comments : ℤ) : ℚ :=
  min 10 (((views : ℚ) + (likes : ℚ) * 10 + (comments : ℚ) * 20) / 100000)

/-- `_calculate_social_viral_score` (lines 1281-1296):
`min(10, (likes*1 + comments*5 + shares*10 + engagement_rate*1000) / 10000)`. -/
def calculateSocialViralScore (likes comments shares : ℤ) (engagementRate : ℚ) : ℚ :=
  min 10 (((likes : ℚ) * 1 + (comments : ℚ) * 5 + (shares : ℚ) * 10
    + engagementRate * 1000) / 10000)

/-- `_calculate_twitter_viral_score` (lines 1298-1313):
`min(10, (retweets*10 + likes*2 + replies*5 + quotes*15) / 5000)`. -/
def calculateTwitterViralScore (retweets likes replies quotes : ℤ) : ℚ :=
  min 10 (((retweets : ℚ) * 10 + (likes : ℚ) * 2 + (replies : ℚ) * 5
    + (quotes : ℚ) * 15) / 5000)

end Orchestrator

namespace AIManager

/-- A provider descriptor as registered by `_initialize_providers`: its dict
key, priority, mutable availability flag and `supports_tools` capability. -/
structure Provider where
  name : String
  priority : Nat
  available : Bool
  supportsTools : Bool
  deriving DecidableEq, Repr

/-- First element of minimal priority of a list, the effect of Python's
stable `available.sort(key=lambda x: x[1])` followed by `available[0]`. -/
def pickFirstMin : List Provider → Option Provider
  | [] => none
  | p :: ps =>
    match pickFirstMin ps with
    | none => some p
    | some q => if p.priority ≤ q.priority then some p else some q

/-- The filter of `_get_best_provider` (lines 205-215): keep a provider when it
is available and, if tools are required, when it supports tools — except that
a provider named exactly `"openrouter"` is let through the tools filter
(lines 211-213). -/
def eligible (requireTools : Bool) (p : Provider) : Bool :=
  p.available && (!requireTools || (p.supportsTools || p.name == "openrouter"))

/-- `_get_best_provider` (lines 201-228): pick the first minimal-priority
eligible provider; when tools were required and nothing survived, retry once
with the tools filter relaxed; return `none` only when nothing is available. -/
def selectProvider (ps : List Provider) (requireTools : Bool) : Option String :=
  match pickFirstMin (ps.filter (eligible requireTools)) with
  | some p => some p.name
  | none =>
    if requireTools then
      match pickFirstMin (ps.filter (eligible false)) with
      | some p => some p.name
      | none => none
    else none

/-- The mutable manager state: per OpenRouter provider its configuration flag,
client-pool size, rotation cursor and availability, plus the configuration and
availability flags of the direct Gemini, Groq and OpenAI providers.  Providers
are only registered with a non-empty client pool, so a configured provider has
a positive pool size. -/
structure AIState where
  grokConfigured : Bool
  grokClients : Nat
  grokIdx : Nat
  grokAvailable : Bool
  gemORConfigured : Bool
  gemORClients : Nat
  gemORIdx : Nat
  gemORAvailable : Bool
  gemConfigured : Bool
  gemAvailable : Bool
  groqConfigured : Bool
  groqAvailable : Bool
  openaiConfigured : Bool
  openaiAvailable : Bool
  deriving DecidableEq, Repr

/-- The provider dict as a list in declaration order, with the priorities,
capabilities and registration conditions of `_initialize_providers`. -/
def providerList (st : AIState) : List Provider :=
  (if st.grokConfigured then [⟨"openrouter_grok", 1, st.grokAvailable, true⟩] else []) ++
  (if st.gemORConfigured then [⟨"openrouter_gemini", 2, st.gemORAvailable, true⟩] else []) ++
  (if st.gemConfigured then [⟨"gemini", 3, st.gemAvailable, true⟩] else []) ++
  (if st.groqConfigured then [⟨"groq", 4, st.groqAvailable, false⟩] else []) ++
  (if st.openaiConfigured then [⟨"openai", 5, st.openaiAvailable, true⟩] else [])

/-- Outcome of one `chat.completions.create` call inside
`_generate_openrouter_with_tools`, as classified by the loop body: a response
whose first tool call names `google_search`, a final text response, an
exception whose text matches the rate-limit markers (`"429"`/`"quota"`/
`"rate_limit"`), or any other exception. -/
inductive GenEvent where
  | rateLimited
  | otherError
  | toolCall
  | final (text : String)
  deriving DecidableEq, Repr

/-- Result of a generation routine: a returned string, or an exception
propagating out of the routine. -/
inductive GenResult where
  | text (s : String)
  | exn (msg : String)
  deriving DecidableEq, Repr

/-- How the `while iteration < max_iterations` loop of
`_generate_openrouter_with_tools` exits: a final text (after rotating the
stored cursor), a completed credential cycle detected on a rate limit, or the
iteration cap / a non-rate-limit error (both of which fall through to the
iteration-limit message). -/
inductive LoopExit where
  | finalText (s : String)
  | fullCycle
  | iterEnd
  deriving DecidableEq, Repr

/-- The loop body of `_generate_openrouter_with_tools` (lines 558-643).
`respond iter` is the outcome of the create call at iteration `iter`; `n` the
client-pool size; `c` the value `current_index` read once at line 528 (the
client used never changes inside the loop); `idx` the current value of the
stored cursor `provider["current_client_index"]`.  On a rate limit the stored
cursor is set to `(c + 1) % n` — computed from the never-updated snapshot `c` —
and a full cycle is detected only when that value equals `c`. -/
def orLoop (respond : Nat → GenEvent) (n c : Nat) : Nat → Nat → Nat → LoopExit × Nat
  | idx, _, 0 => (.iterEnd, idx)
  | idx, iter, left + 1 =>
    match respond iter with
    | .final s => (.finalText s, (c + 1) % n)
    | .toolCall => orLoop respond n c idx (iter + 1) left
    | .rateLimited =>
      if (c + 1) % n = c then (.fullCycle, (c + 1) % n)
      else orLoop respond n c ((c + 1) % n) (iter + 1) left
    | .otherError => (.iterEnd, idx)

/-- Outcome of one iteration of `_generate_gemini_with_tools`: the
`send_message` call raised, or the response carried a `google_search` function
call, or it carried plain text. -/
inductive GemEvent where
  | sendError
  | toolCallResponse
  | textResponse (s : String)
  deriving DecidableEq, Repr

/-- Iteration-limit message of `_generate_gemini_with_tools` (line 398). -/
def gemIterMsg : String :=
  "Análise realizada com busca ativa, mas processo limitado por iterações."

/-- The loop of `_generate_gemini_with_tools` (lines 339-398).  Every branch
ends in the iteration-limit message: a raising `send_message` breaks out of
the loop, and both response shapes fall through to the final-response block,
which reads the names `min_processing_time` and `start_time` (locals of
`generate_with_active_search`, undefined in this method) and so raises
`NameError`, caught at line 392 and turned into a `break`. -/
def geminiIterate (respond : Nat → GemEvent) : Nat → Nat → GenResult
  | _, 0 => .text gemIterMsg
  | iter, _left + 1 =>
    match respond iter with
    | .sendError => .text gemIterMsg
    | .toolCallResponse => .text gemIterMsg
    | .textResponse _ => .text gemIterMsg

/-- `_generate_gemini_with_tools` (lines 304-402). -/
def genGeminiWithTools (respond : Nat → GemEvent) (maxIter : Nat) : GenResult :=
  geminiIterate respond 1 maxIter

/-- Iteration-limit message of the Grok OpenRouter loop (line 647). -/
def grokIterMsg : String :=
  "Análise realizada com X-AI Grok-4-Fast FREE - IA Primária e busca ativa."

/-- Iteration-limit message of the Gemini OpenRouter loop (line 647). -/
def gemORIterMsg : String :=
  "Análise realizada com Gemini 2.0 Flash Exp FREE - IA Fallback e busca ativa."

/-- Exhaustion exception raised at line 638. -/
def exhaustedMsg : String := "Todos os provedores OpenRouter esgotados"

/-- `_generate_openrouter_with_tools` called with
`provider_key = "openrouter_gemini"`.  `oracle key c iter` is the outcome of
the create call for provider `key` on client `c` at iteration `iter`.  On a
completed credential cycle the provider is marked unavailable and the call
falls back to `_generate_gemini_with_tools` when the direct Gemini provider is
registered, else raises; the raise reaches the outer handler (line 649) which
re-raises for this provider key. -/
def openrouterGeminiCall (oracle : String → Nat → Nat → GenEvent)
    (gemRespond : Nat → GemEvent) (maxIter : Nat) (st : AIState) : GenResult × AIState :=
  if !st.gemORConfigured then
    (.exn "KeyError", st)
  else
    let c := st.gemORIdx
    let n := st.gemORClients
    match orLoop (oracle "openrouter_gemini" c) n c c 1 maxIter with
    | (.finalText s, idx) => (.text s, { st with gemORIdx := idx })
    | (.iterEnd, idx) => (.text gemORIterMsg, { st with gemORIdx := idx })
    | (.fullCycle, idx) =>
      let st' := { st with gemORIdx := idx, gemORAvailable := false }
      if st'.gemConfigured then
        (genGeminiWithTools gemRespond maxIter, st')
      else
        (.exn exhaustedMsg, st')

/-- `_generate_openrouter_with_tools` called with
`provider_key = "openrouter_grok"`.  On a completed credential cycle the
provider is marked unavailable and the Gemini OpenRouter provider is called
when registered; if that nested call raises, the outer handler (lines 649-655)
calls it once more and lets any further exception propagate. -/
def openrouterGrokCall (oracle : String → Nat → Nat → GenEvent)
    (gemRespond : Nat → GemEvent) (maxIter : Nat) (st : AIState) : GenResult × AIState :=
  if !st.grokConfigured then
    if st.gemORConfigured then openrouterGeminiCall oracle gemRespond maxIter st
    else (.exn "KeyError", st)
  else
    let c := st.grokIdx
    let n := st.grokClients
    match orLoop (oracle "openrouter_grok" c) n c c 1 maxIter with
    | (.finalText s, idx) => (.text s, { st with grokIdx := idx })
    | (.iterEnd, idx) => (.text grokIterMsg, { st with grokIdx := idx })
    | (.fullCycle, idx) =>
      let st' := { st with grokIdx := idx, grokAvailable := false }
      if st'.gemORConfigured then
        match openrouterGeminiCall oracle gemRespond maxIter st' with
        | (.exn _, st2) => openrouterGeminiCall oracle gemRespond maxIter st2
        | r => r
      else (.exn exhaustedMsg, st')

/-- Fall-through message of `generate_text` (line 878). -/
def notImplementedMsg : String :=
  "Erro: Método de geração não implementado para este provedor"

/-- No-provider message of `generate_text` (line 750). -/
def noProviderMsg : String :=
  "Erro: Nenhum provedor de IA disponível para gerar texto."

/-- Degraded message of `generate_text` (line 876); the embedding keeps the
exception text abstract. -/
def genErrorMsg : String := "Erro na geração: exception"

/-- The credential retry loop of `generate_text` (lines 767-788 and 800-820):
try the client at the cursor; on an exception advance the cursor by one modulo
the pool size and retry, raising after the last attempt.  `call idx` is
`some text` when the create call on client `idx` returns, `none` when it
raises.  Returns the result (`none` = the final re-raise) and the cursor. -/
def keyLoop (call : Nat → Option String) (n : Nat) : Nat → Nat → Option String × Nat
  | idx, 0 => (none, idx)
  | idx, left + 1 =>
    match call idx with
    | some s => (some s, idx)
    | none => keyLoop call n ((idx + 1) % n) left

/-- `generate_text` (lines 744-878).  `callOracle key idx` is the outcome of
the single network call for provider `key` on client/key index `idx`.  The
`fuel` argument models Python's bounded call stack: the method's exception
handler (lines 863-876) calls `generate_text` itself again when the failed
provider was an OpenRouter one and its fallback target is available, and a
chain of such calls that never returns ends in a `RecursionError` — the
`fuel = 0` case. -/
def generateText (callOracle : String → Nat → Option String) :
    AIState → Nat → GenResult × AIState
  | st, 0 => (.exn "RecursionError", st)
  | st, fuel + 1 =>
    match selectProvider (providerList st) false with
    | none => (.text noProviderMsg, st)
    | some name =>
      if name = "openrouter_grok" then
        if st.grokClients = 0 then (.text notImplementedMsg, st)
        else
          match keyLoop (callOracle "openrouter_grok") st.grokClients st.grokIdx st.grokClients with
          | (some s, idx) => (.text s, { st with grokIdx := idx })
          | (none, idx) =>
            let st' := { st with grokIdx := idx }
            if st'.gemORConfigured && st'.gemORAvailable then
              generateText callOracle st' fuel
            else (.text genErrorMsg, st')
      else if name = "openrouter_gemini" then
        if st.gemORClients = 0 then (.text notImplementedMsg, st)
        else
          match keyLoop (callOracle "openrouter_gemini") st.gemORClients st.gemORIdx st.gemORClients with
          | (some s, idx) => (.text s, { st with gemORIdx := idx })
          | (none, idx) =>
            let st' := { st with gemORIdx := idx }
            if st'.gemConfigured && st'.gemAvailable then
              generateText callOracle st' fuel
            else (.text genErrorMsg, st')
      else if name = "gemini" then
        match callOracle "gemini" 0 with
        | some s => (.text s, st)
        | none => (.text genErrorMsg, st)
      else if name = "groq" then
        match callOracle "groq" 0 with
        | some s => (.text s, st)
        | none => (.text genErrorMsg, st)
      else (.text notImplementedMsg, st)

/-- Outcome of one `chat.completions.create` call inside
`_generate_openai_with_tools`: a `google_search` tool call, a final text, an
exception matching the quota markers, or any other exception. -/
inductive OpenAIEvent where
  | toolCall
  | final (s : String)
  | quotaError
  | otherError
  deriving DecidableEq, Repr

/-- Message returned by `_generate_openai_with_tools` both on a non-quota
error (`break`, line 508) and at the iteration cap (line 510). -/
def openaiIterMsg : String := "Análise realizada com OpenAI e busca ativa."

/-- Quota exhaustion message of `_generate_openai_with_tools` (line 505). -/
def openaiQuotaMsg : String :=
  "OpenAI quota excedida e nenhum provedor alternativo disponível. Por favor, configure uma chave API válida."

/-- The loop of `_generate_openai_with_tools` (lines 437-510): on a quota
error OpenAI is marked unavailable and, when `_get_best_provider` names a
different fallback, the call degrades to `generate_text`. -/
def openaiLoop (respond : Nat → OpenAIEvent) (callOracle : String → Nat → Option String)
    (fuel : Nat) : AIState → Nat → Nat → GenResult × AIState
  | st, _, 0 => (.text openaiIterMsg, st)
  | st, iter, left + 1 =>
    match respond iter with
    | .toolCall => openaiLoop respond callOracle fuel st (iter + 1) left
    | .final s => (.text s, st)
    | .otherError => (.text openaiIterMsg, st)
    | .quotaError =>
      let st' := { st with openaiAvailable := false }
      match selectProvider (providerList st') false with
      | some fb =>
        if fb ≠ "openai" then generateText callOracle st' fuel
        else (.text openaiQuotaMsg, st')
      | none => (.text openaiQuotaMsg, st')

/-- `_generate_openai_with_tools` (lines 404-514). -/
def openaiWithTools (respond : Nat → OpenAIEvent) (callOracle : String → Nat → Option String)
    (fuel maxIter : Nat) (st : AIState) : GenResult × AIState :=
  openaiLoop respond callOracle fuel st 1 maxIter

/-- `generate_with_active_search` (lines 230-302) with no preferred model:
take the Grok OpenRouter provider when registered and available, else the
Gemini OpenRouter one, else ask the selector for a tools-capable provider
(falling back to plain `generate_text` when it returns nothing, line 263).
Dispatch to the provider-specific tool loop; an exception from the dispatched
call is caught at line 298 and degraded to `generate_text`. -/
def generateWithActiveSearch (oracle : String → Nat → Nat → GenEvent)
    (gemRespond : Nat → GemEvent) (oaRespond : Nat → OpenAIEvent)
    (callOracle : String → Nat → Option String)
    (maxIter fuel : Nat) (st : AIState) : GenResult × AIState :=
  if st.grokConfigured && st.grokAvailable then
    match openrouterGrokCall oracle gemRespond maxIter st with
    | (.exn _, st') => generateText callOracle st' fuel
    | r => r
  else if st.gemORConfigured && st.gemORAvailable then
    match openrouterGeminiCall oracle gemRespond maxIter st with
    | (.exn _, st') => generateText callOracle st' fuel
    | r => r
  else
    match selectProvider (providerList st) true with
    | none => generateText callOracle st fuel
    | some name =>
      if name = "gemini" then (genGeminiWithTools gemRespond maxIter, st)
      else if name = "openai" then
        match openaiWithTools oaRespond callOracle fuel maxIter st with
        | (.exn _, st') => generateText callOracle st' fuel
        | r => r
      else
        match generateText callOracle st fuel with
        | (.exn _, st') => generateText callOracle st' fuel
        | r => r

end AIManager

namespace Orchestrator

lemma pickViral_sublist (l : List SearchRecord) :
    ∀ seen k, (pickViral seen k l).Sublist l := by
  induction l with
  | nil => intro seen k; simp [pickViral]
  | cons a rest ih =>
    intro seen k
    by_cases h : a.url ≠ "" ∧ a.url ∉ seen ∧ k < 10
    · simp only [pickViral, if_pos h]
      exact List.Sublist.cons₂ a (ih _ _)
    · simp only [pickViral, if_neg h]
      exact List.Sublist.cons a (ih _ _)

lemma pickViral_length (l : List SearchRecord) :
    ∀ seen k, (pickViral seen k l).length ≤ 10 - k := by
  induction l with
  | nil => intro seen k; simp [pickViral]
  | cons a rest ih =>
    intro seen k
    by_cases h : a.url ≠ "" ∧ a.url ∉ seen ∧ k < 10
    · simp only [pickViral, if_pos h, List.length_cons]
      have h2 := ih (a.url :: seen) (k + 1)
      have h3 := h.2.2
      omega
    · simp only [pickViral, if_neg h]
      exact ih seen k

lemma pickViral_mem (l : List SearchRecord) :
    ∀ seen k r, r ∈ pickViral seen k l → r ∈ l ∧ r.url ≠ "" ∧ r.url ∉ seen := by
  induction l with
  | nil => intro seen k r hr; simp [pickViral] at hr
  | cons a rest ih =>
    intro seen k r hr
    by_cases h : a.url ≠ "" ∧ a.url ∉ seen ∧ k < 10
    · simp only [pickViral, if_pos h] at hr
      rcases List.mem_cons.mp hr with rfl | hr2
      · exact ⟨List.mem_cons_self _ _, h.1, h.2.1⟩
      · obtain ⟨h1, h2, h3⟩ := ih _ _ _ hr2
        exact ⟨List.mem_cons_of_mem _ h1, h2, fun hseen => h3 (List.mem_cons_of_mem _ hseen)⟩
    · simp only [pickViral, if_neg h] at hr
      obtain ⟨h1, h2, h3⟩ := ih _ _ _ hr
      exact ⟨List.mem_cons_of_mem _ h1, h2, h3⟩

lemma pickViral_pairwise (l : List SearchRecord) :
    ∀ seen k, (pickViral seen k l).Pairwise (fun a b => a.url ≠ b.url) := by
  induction l with
  | nil => intro seen k; simp [pickViral]
  | cons a rest ih =>
    intro seen k
    by_cases h : a.url ≠ "" ∧ a.url ∉ seen ∧ k < 10
    · simp only [pickViral, if_pos h]
      refine List.Pairwise.cons ?_ (ih _ _)
      intro b hb
      have h3 := (pickViral_mem _ _ _ _ hb).2.2
      intro he
      exact h3 (by rw [← he]; exact List.mem_cons_self _ _)
    · simp only [pickViral, if_neg h]
      exact ih _ _

lemma sortByViralDesc_sorted (rs : List SearchRecord) :
    (sortByViralDesc rs).Pairwise (fun a b => viralKey b ≤ viralKey a) := by
  haveI h1 : IsTotal SearchRecord (fun a b => viralKey b ≤ viralKey a) :=
    ⟨fun a b => le_total (viralKey b) (viralKey a)⟩
  haveI h2 : IsTrans SearchRecord (fun a b => viralKey b ≤ viralKey a) :=
    ⟨fun _ _ _ hab hbc => le_trans hbc hab⟩
  exact List.sorted_insertionSort _ rs

lemma sortByViralDesc_perm (rs : List SearchRecord) : (sortByViralDesc rs).Perm rs :=
  List.perm_insertionSort _ _

/-- C10: on every input list, `_identify_viral_content` returns at most 10
records, each drawn from the input with a non-empty url, the urls pairwise
distinct, and the list ordered by non-increasing viral score (a missing score
counting as 0). -/
theorem C10_viral_selection (rs : List SearchRecord) :
    (identifyViralContent rs).length ≤ 10 ∧
    (∀ r ∈ identifyViralContent rs, r ∈ rs ∧ r.url ≠ "") ∧
    (identifyViralContent rs).Pairwise (fun a b => a.url ≠ b.url) ∧
    (identifyViralContent rs).Pairwise (fun a b => viralKey b ≤ viralKey a) := by
  unfold identifyViralContent
  by_cases h : rs.isEmpty
  · simp [h]
  · rw [if_neg h]
    refine ⟨?_, ?_, ?_, ?_⟩
    · have h2 := pickViral_length (sortByViralDesc rs) [] 0
      omega
    · intro r hr
      obtain ⟨h1, h2, _⟩ := pickViral_mem _ _ _ _ hr
      exact ⟨(sortByViralDesc_perm rs).mem_iff.mp h1, h2⟩
    · exact pickViral_pairwise _ _ _
    · exact List.Pairwise.sublist (pickViral_sublist _ _ _) (sortByViralDesc_sorted rs)

/-- A sample video record with a mid-range viral score. -/
def recV1 : SearchRecord := ⟨"Video one", "http://v1.com", "", "", some 3⟩

/-- A sample video record with a high viral score. -/
def recV2 : SearchRecord := ⟨"Video two", "http://v2.com", "", "", some 7⟩

/-- Witness for C10 at a concrete two-record input. -/
theorem C10_viral_selection_witness :
    (identifyViralContent [recV1, recV2]).Pairwise (fun a b => viralKey b ≤ viralKey a) :=
  (C10_viral_selection [recV1, recV2]).2.2.2

/-- C7: `get_next_api_key` returns the key at the cursor and advances the
cursor by one modulo the pool size (the cursor stays in range); a pool of
three keys called four times hands out the keys at indices 0, 1, 2, 0; a
provider with no configured keys yields `none` with no state change and no
error. -/
theorem C7_key_rotation :
    (∀ s : KeyState, s.keys ≠ [] → s.index < s.keys.length →
      (getNextApiKey s).1 = s.keys.get? s.index ∧
      ((getNextApiKey s).1).isSome = true ∧
      (getNextApiKey s).2.keys = s.keys ∧
      (getNextApiKey s).2.index = (s.index + 1) % s.keys.length ∧
      (getNextApiKey s).2.index < s.keys.length) ∧
    (∀ i : Nat, getNextApiKey ⟨[], i⟩ = (none, ⟨[], i⟩)) ∧
    (runKeyCalls ⟨["k0", "k1", "k2"], 0⟩ 4).1 =
      [some "k0", some "k1", some "k2", some "k0"] := by
  refine ⟨?_, ?_, ?_⟩
  · intro s hne hlt
    have hni : s.keys.isEmpty = false := by simpa [List.isEmpty_iff] using hne
    have hpos : 0 < s.keys.length := List.length_pos.mpr hne
    refine ⟨by simp [getNextApiKey, hni], ?_, by simp [getNextApiKey, hni],
      by simp [getNextApiKey, hni], ?_⟩
    · simp only [getNextApiKey, hni, Bool.false_eq_true, if_false]
      rw [List.get?_eq_get hlt]
      rfl
    · simp only [getNextApiKey, hni, Bool.false_eq_true, if_false]
      exact Nat.mod_lt _ hpos
  · intro i
    simp [getNextApiKey]
  · decide

/-- Witness for C7 at a concrete two-key pool with the cursor at 1. -/
theorem C7_key_rotation_witness :
    (getNextApiKey ⟨["a", "b"], 1⟩).1 = (["a", "b"] : List String).get? 1 :=
  (C7_key_rotation.1 ⟨["a", "b"], 1⟩ (by decide) (by decide)).1

/-- Counterexample for C5: none of the three platform formulas clamps its
inputs, so negative metrics produce negative scores. -/
theorem C5_counterexample :
    calculateViralScore (-100000) 0 0 < 0 ∧
    calculateSocialViralScore (-10000) 0 0 0 < 0 ∧
    calculateTwitterViralScore (-500) 0 0 0 < 0 := by
  refine ⟨?_, ?_, ?_⟩ <;>
    norm_num [calculateViralScore, calculateSocialViralScore,
      calculateTwitterViralScore, min_def]

/-- C5 (amended): the video formula is `min(10, (views + likes*10 +
comments*20)/100000)` and evaluates to 10 at views=1000000, likes=50000,
comments=5000; all three platform formulas are monotonically non-decreasing in
every metric; and for non-negative inputs the video score lies in [0, 10]
(the code does not clamp inputs, so negative metrics may yield negative
scores — see the counterexample). -/
theorem C5_viral_score_amended :
    calculateViralScore 1000000 50000 5000 = 10 ∧
    (∀ v v' l l' c c' : ℤ, v ≤ v' → l ≤ l' → c ≤ c' →
      calculateViralScore v l c ≤ calculateViralScore v' l' c') ∧
    (∀ l l' c c' s s' : ℤ, ∀ e e' : ℚ, l ≤ l' → c ≤ c' → s ≤ s' → e ≤ e' →
      calculateSocialViralScore l c s e ≤ calculateSocialViralScore l' c' s' e') ∧
    (∀ r r' l l' p p' q q' : ℤ, r ≤ r' → l ≤ l' → p ≤ p' → q ≤ q' →
      calculateTwitterViralScore r l p q ≤ calculateTwitterViralScore r' l' p' q') ∧
    (∀ v l c : ℤ, 0 ≤ v → 0 ≤ l → 0 ≤ c →
      0 ≤ calculateViralScore v l c ∧ calculateViralScore v l c ≤ 10) := by
  refine ⟨?_, ?_, ?_, ?_, ?_⟩
  · norm_num [calculateViralScore, min_def]
  · intro v v' l l' c c' hv hl hc
    unfold calculateViralScore
    apply min_le_min le_rfl
    have hv' : (v : ℚ) ≤ (v' : ℚ) := by exact_mod_cast hv
    have hl' : (l : ℚ) ≤ (l' : ℚ) := by exact_mod_cast hl
    have hc' : (c : ℚ) ≤ (c' : ℚ) := by exact_mod_cast hc
    apply div_le_div_of_nonneg_right ?_ (by norm_num)
    linarith
  · intro l l' c c' s s' e e' hl hc hs he
    unfold calculateSocialViralScore
    apply min_le_min le_rfl
    have hl' : (l : ℚ) ≤ (l' : ℚ) := by exact_mod_cast hl
    have hc' : (c : ℚ) ≤ (c' : ℚ) := by exact_mod_cast hc
    have hs' : (s : ℚ) ≤ (s' : ℚ) := by exact_mod_cast hs
    apply div_le_div_of_nonneg_right ?_ (by norm_num)
    linarith
  · intro r r' l l' p p' q q' hr hl hp hq
    unfold calculateTwitterViralScore
    apply min_le_min le_rfl
    have hr' : (r : ℚ) ≤ (r' : ℚ) := by exact_mod_cast hr
    have hl' : (l : ℚ) ≤ (l' : ℚ) := by exact_mod_cast hl
    have hp' : (p : ℚ) ≤ (p' : ℚ) := by exact_mod_cast hp
    have hq' : (q : ℚ) ≤ (q' : ℚ) := by exact_mod_cast hq
    apply div_le_div_of_nonneg_right ?_ (by norm_num)
    linarith
  · intro v l c hv hl hc
    have hv' : (0 : ℚ) ≤ (v : ℚ) := by exact_mod_cast hv
    have hl' : (0 : ℚ) ≤ (l : ℚ) := by exact_mod_cast hl
    have hc' : (0 : ℚ) ≤ (c : ℚ) := by exact_mod_cast hc
    unfold calculateViralScore
    constructor
    · apply le_min (by norm_num)
      apply div_nonneg ?_ (by norm_num)
      linarith
    · exact min_le_left _ _

/-- Witness for C5 at concrete monotone inputs. -/
theorem C5_viral_score_witness :
    calculateViralScore 1 2 3 ≤ calculateViralScore 2 3 4 :=
  C5_viral_score_amended.2.1 1 2 2 3 3 4 (by norm_num) (by norm_num) (by norm_num)

/-- The records a single gathered web outcome contributes to `web_results`. -/
def webContribution : Outcome → List SearchRecord
  | .exn => []
  | .res success _ records => if success && !records.isEmpty then records else []

/-- The records a single gathered social outcome contributes to
`youtube_results`. -/
def youtubeContribution : Outcome → List SearchRecord
  | .exn => []
  | .res success platform records =>
    if success then (if platform = some "youtube" then records else []) else []

/-- The records a single gathered social outcome contributes to
`social_results`. -/
def socialContribution : Outcome → List SearchRecord
  | .exn => []
  | .res success platform records =>
    if success then (if platform = some "youtube" then [] else records) else []

lemma collectWeb_eq (outs : List Outcome) :
    collectWeb outs = (outs.map webContribution).flatten := by
  induction outs with
  | nil => simp [collectWeb]
  | cons o rest ih =>
    cases o with
    | exn => simp [collectWeb, webContribution, ih]
    | res s p recs =>
      cases hs : (s && !recs.isEmpty) <;>
        simp [collectWeb, webContribution, hs, ih]

lemma collectSocial_eq (outs : List Outcome) :
    collectSocial outs =
      ((outs.map youtubeContribution).flatten, (outs.map socialContribution).flatten) := by
  induction outs with
  | nil => simp [collectSocial]
  | cons o rest ih =>
    cases o with
    | exn => simp [collectSocial, youtubeContribution, socialContribution, ih]
    | res s p recs =>
      cases hs : s
      · simp [collectSocial, youtubeContribution, socialContribution, hs, ih]
      · by_cases hp : p = some "youtube" <;>
          simp [collectSocial, youtubeContribution, socialContribution, hs, hp, ih]

/-- C6: the fan-out collection loops treat an adapter exception as an empty
contribution and keep every record of every successful outcome, in order: the
collected web bucket is exactly the concatenation of the per-outcome
contributions (an exception contributing `[]`), likewise the youtube/social
buckets, and each record of a successful outcome is present in the collected
bucket no matter what the sibling outcomes did. -/
theorem C6_fanout_isolation :
    (∀ outs : List Outcome, collectWeb outs = (outs.map webContribution).flatten) ∧
    (∀ outs : List Outcome,
      collectSocial outs =
        ((outs.map youtubeContribution).flatten, (outs.map socialContribution).flatten)) ∧
    (∀ outs : List Outcome, ∀ p recs, Outcome.res true p recs ∈ outs →
      recs.isEmpty = false → ∀ r ∈ recs, r ∈ collectWeb outs) ∧
    (∀ outs : List Outcome, ∀ p recs, Outcome.res true p recs ∈ outs →
      ∀ r ∈ recs, r ∈ (collectSocial outs).1 ∨ r ∈ (collectSocial outs).2) ∧
    webContribution .exn = [] ∧ youtubeContribution .exn = [] ∧
    socialContribution .exn = [] := by
  refine ⟨collectWeb_eq, collectSocial_eq, ?_, ?_, rfl, rfl, rfl⟩
  · intro outs p recs ho hne r hr
    rw [collectWeb_eq]
    rw [List.mem_flatten]
    refine ⟨recs, ?_, hr⟩
    have : webContribution (.res true p recs) = recs := by
      simp [webContribution, hne]
    rw [← this]
    exact List.mem_map_of_mem _ ho
  · intro outs p recs ho r hr
    rw [collectSocial_eq]
    by_cases hp : p = some "youtube"
    · left
      rw [List.mem_flatten]
      refine ⟨recs, ?_, hr⟩
      have : youtubeContribution (.res true p recs) = recs := by
        simp [youtubeContribution, hp]
      rw [← this]
      exact List.mem_map_of_mem _ ho
    · right
      rw [List.mem_flatten]
      refine ⟨recs, ?_, hr⟩
      have : socialContribution (.res true p recs) = recs := by
        simp [socialContribution, hp]
      rw [← this]
      exact List.mem_map_of_mem _ ho

/-- A sample clean web record. -/
def recW : SearchRecord := ⟨"Daily news article", "http://w.com", "", "", none⟩

/-- Witness for C6: a successful outcome's record survives a sibling
exception. -/
theorem C6_fanout_witness :
    recW ∈ collectWeb [Outcome.exn, Outcome.res true none [recW]] :=
  C6_fanout_isolation.2.2.1 [Outcome.exn, Outcome.res true none [recW]] none [recW]
    (by simp) (by simp) recW (by simp)

/-- A youtube record whose title carries the blocklist marker `"mock"`. -/
def recMock : SearchRecord := ⟨"Mock viral video", "http://b.com/v", "", "", some 5⟩

/-- A web record whose title carries the English word `"example"`, which is
not on the code's blocklist (the blocklist has `"exemplo"`). -/
def recExample : SearchRecord := ⟨"Example product page", "http://a.com", "", "", none⟩

/-- A fan-out delivering `recExample` from a web adapter and `recMock` from
the youtube adapter. -/
def inpC1 : FanoutInput :=
  ⟨.res false none [], [.res true none [recExample]], [.res true (some "youtube") [recMock]]⟩

/-- Counterexample for C1: the viral subset is computed before the
anti-simulation filter and is never re-filtered, so it can carry a record with
a blocklist marker (`"mock"`); and the code blocklist contains `"exemplo"`,
not `"example"`, so a record titled with the English word survives into the
web bucket. -/
theorem C1_counterexample :
    recMock ∈ (executeMassiveRealSearch "q" inpC1).viralContent ∧
    strContains (toLowerStr recMock.title) "mock" = true ∧
    recExample ∈ (executeMassiveRealSearch "q" inpC1).webResults ∧
    strContains (toLowerStr recExample.title) "example" = true := by
  refine ⟨by decide, by decide, by decide, by decide⟩

/-- C1 (amended): every record of the returned web, social and youtube lists
fails the code's anti-simulation predicate (whose markers are "exemplo",
"sample", "test", "mock", "demo", "placeholder", "lorem ipsum", "fake",
"dummy", "template"); the viral subset is not filtered. -/
theorem C1_blocklist_amended :
    (∀ (query : String) (inp : FanoutInput) (r : SearchRecord),
      (r ∈ (executeMassiveRealSearch query inp).webResults ∨
       r ∈ (executeMassiveRealSearch query inp).socialResults ∨
       r ∈ (executeMassiveRealSearch query inp).youtubeResults) →
      isSimulated r = false) ∧
    "exemplo" ∈ blocklist ∧ "example" ∉ blocklist := by
  refine ⟨?_, by decide, by decide⟩
  intro query inp r hr
  have key : ∀ l : List SearchRecord,
      r ∈ l.filter (fun r => decide (r ∈ realResults inp)) → isSimulated r = false := by
    intro l hl
    have h1 := (List.mem_filter.mp hl).2
    have h2 : r ∈ realResults inp := of_decide_eq_true h1
    have h3 := (List.mem_filter.mp h2).2
    simpa using h3
  rcases hr with h | h | h
  · exact key _ h
  · exact key _ h
  · exact key _ h

/-- Witness for C1 (amended) at the concrete fan-out of the counterexample. -/
theorem C1_blocklist_witness : isSimulated recExample = false :=
  C1_blocklist_amended.1 "q" inpC1 recExample (Or.inl (by decide))

/-- A clean web record at url `http://d.com`. -/
def recDup1 : SearchRecord := ⟨"First article", "http://d.com", "", "", none⟩

/-- A different clean web record at the same url `http://d.com`. -/
def recDup2 : SearchRecord := ⟨"Second article", "http://d.com", "", "", none⟩

/-- Two web adapters each returning one record with the same url. -/
def inpC2 : FanoutInput :=
  ⟨.res false none [], [.res true none [recDup1], .res true none [recDup2]], []⟩

/-- Counterexample for C2: the returned web list keeps both records with the
same url — the aggregation does not deduplicate by URL. -/
theorem C2_counterexample :
    (executeMassiveRealSearch "q" inpC2).webResults = [recDup1, recDup2] ∧
    recDup1.url = recDup2.url ∧ recDup1 ≠ recDup2 := by
  refine ⟨by decide, by decide, by decide⟩

lemma bucket_filter_eq (inp : FanoutInput) (l : List SearchRecord)
    (hsub : ∀ r ∈ l, r ∈ allFanResults inp) :
    (l.filter fun r => decide (r ∈ realResults inp)) =
      l.filter fun r => !isSimulated r := by
  apply List.filter_congr
  intro r hr
  have hall := hsub r hr
  cases hsim : isSimulated r with
  | false => simp [realResults, List.mem_filter, hall, hsim]
  | true => simp [realResults, List.mem_filter, hsim]

lemma identifyViralContent_pairwise_url (rs : List SearchRecord) :
    (identifyViralContent rs).Pairwise (fun a b => a.url ≠ b.url) := by
  unfold identifyViralContent
  by_cases h : rs.isEmpty
  · simp [h]
  · rw [if_neg h]
    exact pickViral_pairwise _ _ _

/-- C2 (amended): the aggregation does not deduplicate the returned web,
social and youtube lists — each is exactly the fan-out bucket with only the
anti-simulation filter applied, preserving order and duplicates; URL
deduplication (first occurrence wins) is applied only to the viral subset,
and the unique-URL statistic counts distinct non-empty urls, so it never
exceeds the total source count. -/
theorem C2_dedup_amended (query : String) (inp : FanoutInput) :
    (executeMassiveRealSearch query inp).webResults =
      (fanWeb inp).filter (fun r => !isSimulated r) ∧
    (executeMassiveRealSearch query inp).socialResults =
      (fanSocial inp).filter (fun r => !isSimulated r) ∧
    (executeMassiveRealSearch query inp).youtubeResults =
      (fanYoutube inp).filter (fun r => !isSimulated r) ∧
    (executeMassiveRealSearch query inp).viralContent.Pairwise
      (fun a b => a.url ≠ b.url) ∧
    (executeMassiveRealSearch query inp).uniqueUrls ≤
      (executeMassiveRealSearch query inp).totalSources := by
  refine ⟨?_, ?_, ?_, ?_, ?_⟩
  · exact bucket_filter_eq inp _ (fun r hr => by simp [allFanResults, List.mem_append, hr])
  · exact bucket_filter_eq inp _ (fun r hr => by simp [allFanResults, List.mem_append, hr])
  · exact bucket_filter_eq inp _ (fun r hr => by simp [allFanResults, List.mem_append, hr])
  · exact identifyViralContent_pairwise_url _
  · calc ((((allFanResults inp).filterMap fun r =>
        if r.url ≠ "" then some r.url else none).dedup)).length
        ≤ ((allFanResults inp).filterMap fun r =>
            if r.url ≠ "" then some r.url else none).length :=
          (List.dedup_sublist _).length_le
      _ ≤ (allFanResults inp).length := List.length_filterMap_le _ _

end Orchestrator

namespace AIManager

lemma pickFirstMin_eq_none (l : List Provider) : pickFirstMin l = none ↔ l = [] := by
  cases l with
  | nil => simp [pickFirstMin]
  | cons p ps =>
    simp only [pickFirstMin]
    cases h : pickFirstMin ps
    · simp
    · dsimp only
      split_ifs <;> simp

lemma pickFirstMin_spec (l : List Provider) (p : Provider) (h : pickFirstMin l = some p) :
    ∃ l₁ l₂, l = l₁ ++ p :: l₂ ∧ (∀ q ∈ l₁, p.priority < q.priority) ∧
      (∀ q ∈ l₂, p.priority ≤ q.priority) := by
  induction l generalizing p with
  | nil => simp [pickFirstMin] at h
  | cons a ps ih =>
    simp only [pickFirstMin] at h
    cases hps : pickFirstMin ps with
    | none =>
      rw [hps] at h
      obtain rfl : a = p := Option.some.inj h
      have hnil : ps = [] := (pickFirstMin_eq_none ps).mp hps
      subst hnil
      exact ⟨[], [], rfl, by simp, by simp⟩
    | some q =>
      rw [hps] at h
      dsimp only at h
      by_cases hle : a.priority ≤ q.priority
      · rw [if_pos hle] at h
        obtain rfl : a = p := Option.some.inj h
        obtain ⟨m₁, m₂, heq, h₁, h₂⟩ := ih q hps
        refine ⟨[], ps, rfl, by simp, ?_⟩
        intro r hr
        have hq : q.priority ≤ r.priority := by
          rw [heq] at hr
          rcases List.mem_append.mp hr with hin | hin
          · exact le_of_lt (h₁ r hin)
          · rcases List.mem_cons.mp hin with rfl | hin
            · exact le_rfl
            · exact h₂ r hin
        exact le_trans hle hq
      · rw [if_neg hle] at h
        obtain rfl : q = p := Option.some.inj h
        obtain ⟨m₁, m₂, heq, h₁, h₂⟩ := ih q hps
        refine ⟨a :: m₁, m₂, by rw [heq]; rfl, ?_, h₂⟩
        intro r hr
        rcases List.mem_cons.mp hr with rfl | hin
        · exact Nat.lt_of_not_le hle
        · exact h₁ r hin

lemma pickFirstMin_mem (l : List Provider) (p : Provider) (h : pickFirstMin l = some p) :
    p ∈ l := by
  obtain ⟨l₁, l₂, heq, -, -⟩ := pickFirstMin_spec l p h
  rw [heq]
  simp

lemma pickFirstMin_le (l : List Provider) (p : Provider) (h : pickFirstMin l = some p) :
    ∀ q ∈ l, p.priority ≤ q.priority := by
  obtain ⟨l₁, l₂, heq, h₁, h₂⟩ := pickFirstMin_spec l p h
  intro q hq
  rw [heq] at hq
  rcases List.mem_append.mp hq with hin | hin
  · exact le_of_lt (h₁ q hin)
  · rcases List.mem_cons.mp hin with rfl | hin
    · exact le_rfl
    · exact h₂ q hin

lemma eligible_false_eq (p : Provider) : eligible false p = p.available := by
  simp [eligible]

/-- Counterexample for C8: a provider named exactly `"openrouter"` slips
through the capability filter (lines 211-213), so the selector can return a
provider that does not support tools even though a tools-capable provider is
available. -/
theorem C8_counterexample :
    selectProvider
      [⟨"openrouter", 1, true, false⟩, ⟨"C", 3, true, true⟩] true =
      some "openrouter" ∧
    (Provider.mk "openrouter" 1 true false).supportsTools = false := by
  exact ⟨by decide, rfl⟩

/-- C8 (amended): the selector keeps available providers, and — when tools
are required — those that support tools or are named `"openrouter"`; among the
survivors it returns the first one of minimal priority (declaration order
breaks ties); when nothing survives the tools filter it relaxes to any
available provider, and it returns `none` exactly when no provider is
available; given A(priority 1, unavailable), B(priority 2, available, no
tools), C(priority 3, available, tools), selecting with tools returns C. -/
theorem C8_selector_amended :
    (∀ (ps : List Provider) (req : Bool),
      (selectProvider ps req = none ↔ ps.filter (fun p => p.available) = [])) ∧
    (∀ (ps : List Provider) (p : Provider),
      pickFirstMin (ps.filter (eligible true)) = some p →
      selectProvider ps true = some p.name ∧ p ∈ ps ∧ p.available = true ∧
      (p.supportsTools = true ∨ p.name = "openrouter") ∧
      (∀ q ∈ ps, q.available = true →
        (q.supportsTools = true ∨ q.name = "openrouter") → p.priority ≤ q.priority) ∧
      (∃ l₁ l₂, ps.filter (eligible true) = l₁ ++ p :: l₂ ∧
        ∀ q ∈ l₁, p.priority < q.priority)) ∧
    (∀ ps : List Provider, ps.filter (eligible true) = [] →
      selectProvider ps true = selectProvider ps false) ∧
    selectProvider
      [⟨"A", 1, false, false⟩, ⟨"B", 2, true, false⟩, ⟨"C", 3, true, true⟩] true =
      some "C" := by
  have havail : ∀ ps : List Provider,
      ps.filter (eligible false) = ps.filter (fun p => p.available) := by
    intro ps
    exact List.filter_congr fun p _ => eligible_false_eq p
  have hfalse : ∀ ps : List Provider,
      (selectProvider ps false = none ↔ ps.filter (fun p => p.available) = []) := by
    intro ps
    simp only [selectProvider, havail]
    cases h : pickFirstMin (ps.filter fun p => p.available) with
    | none => simpa using (pickFirstMin_eq_none _).mp h
    | some q =>
      simp only [h]
      constructor
      · intro hc
        exact absurd hc (by simp)
      · intro hc
        rw [hc] at h
        simp [pickFirstMin] at h
  refine ⟨?_, ?_, ?_, by decide⟩
  · intro ps req
    cases req
    · exact hfalse ps
    · simp only [selectProvider]
      cases h : pickFirstMin (ps.filter (eligible true)) with
      | none =>
        simp only [h, if_pos rfl]
        have h2 := hfalse ps
        simp only [selectProvider, havail] at h2
        rw [havail]
        exact h2
      | some q =>
        simp only [h]
        constructor
        · intro hc
          exact absurd hc (by simp)
        · intro hc
          have hq := pickFirstMin_mem _ _ h
          have hq2 := List.mem_filter.mp hq
          have : q ∈ ps.filter (fun p => p.available) := by
            refine List.mem_filter.mpr ⟨hq2.1, ?_⟩
            have := hq2.2
            simp only [eligible, Bool.and_eq_true] at this
            simp [this.1]
          rw [hc] at this
          simp at this
  · intro ps p h
    have hmem := pickFirstMin_mem _ _ h
    have hmem2 := List.mem_filter.mp hmem
    have helig := hmem2.2
    simp only [eligible, Bool.not_true, Bool.false_or, Bool.and_eq_true,
      Bool.or_eq_true, beq_iff_eq] at helig
    refine ⟨by simp [selectProvider, h], hmem2.1, helig.1, helig.2, ?_, ?_⟩
    · intro q hq hav htool
      have hq2 : q ∈ ps.filter (eligible true) := by
        refine List.mem_filter.mpr ⟨hq, ?_⟩
        simp only [eligible, Bool.not_true, Bool.false_or, Bool.and_eq_true,
          Bool.or_eq_true, beq_iff_eq]
        exact ⟨hav, htool⟩
      exact pickFirstMin_le _ _ h q hq2
    · obtain ⟨l₁, l₂, heq, h₁, -⟩ := pickFirstMin_spec _ _ h
      exact ⟨l₁, l₂, heq, h₁⟩
  · intro ps hemp
    simp only [selectProvider, hemp]
    cases h : pickFirstMin (ps.filter (eligible false)) <;>
      simp [h, pickFirstMin]

/-- Witness for C8 (amended) at a concrete two-provider registry. -/
theorem C8_selector_witness :
    selectProvider [⟨"B", 2, true, false⟩, ⟨"C", 3, true, true⟩] true =
      some (Provider.mk "C" 3 true true).name :=
  (C8_selector_amended.2.1 [⟨"B", 2, true, false⟩, ⟨"C", 3, true, true⟩]
    ⟨"C", 3, true, true⟩ (by decide)).1

/-- The manager state of the C3 run: Grok registered with a pool of two
clients (cursor 0, available), Gemini OpenRouter registered with one client,
no other provider. -/
def stC3 : AIState :=
  { grokConfigured := true, grokClients := 2, grokIdx := 0, grokAvailable := true
    gemORConfigured := true, gemORClients := 1, gemORIdx := 0, gemORAvailable := true
    gemConfigured := false, gemAvailable := false
    groqConfigured := false, groqAvailable := false
    openaiConfigured := false, openaiAvailable := false }

/-- A response oracle where every Grok call is rate-limited and every Gemini
OpenRouter call returns a final text. -/
def rlOracle : String → Nat → Nat → GenEvent :=
  fun key _ _ => if key = "openrouter_grok" then .rateLimited else .final "ok"

/-- An arbitrary Gemini-direct behaviour (never reached in the C3 run). -/
def gemRespondC3 : Nat → GemEvent := fun _ => .sendError

/-- C3: with a pool of two credentials and every call rate-limited, the loop
retries the same first credential until the iteration cap and returns the
iteration-limit message — the provider is never marked unavailable and the
fallback provider is never invoked (its oracle would answer "ok").  With a
pool of one credential the intended behaviour does occur: the provider is
marked unavailable and the fallback provider's answer is returned. -/
theorem C3_rate_limit_no_rotation :
    openrouterGrokCall rlOracle gemRespondC3 3 stC3 =
      (.text grokIterMsg, { stC3 with grokIdx := 1 }) ∧
    (openrouterGrokCall rlOracle gemRespondC3 3 stC3).2.grokAvailable = true ∧
    openrouterGrokCall rlOracle gemRespondC3 3 { stC3 with grokClients := 1 } =
      (.text "ok", { stC3 with grokClients := 1, grokAvailable := false }) := by
  refine ⟨by decide, by decide, by decide⟩

lemma providerList_names (st : AIState) (p : Provider) (hp : p ∈ providerList st) :
    (p.name = "openrouter_grok" → st.grokConfigured = true ∧ p.available = st.grokAvailable) ∧
    (p.name = "openrouter_gemini" → st.gemORConfigured = true ∧ p.available = st.gemORAvailable) := by
  simp only [providerList, List.mem_append] at hp
  rcases hp with ((((h | h) | h) | h) | h) <;> split at h <;> simp_all

lemma selectProvider_some_mem (ps : List Provider) (req : Bool) (name : String)
    (h : selectProvider ps req = some name) :
    ∃ p ∈ ps, p.name = name ∧ p.available = true := by
  simp only [selectProvider] at h
  cases h1 : pickFirstMin (ps.filter (eligible req)) with
  | some p =>
    rw [h1] at h
    dsimp only at h
    obtain rfl : p.name = name := Option.some.inj h
    have hmem := List.mem_filter.mp (pickFirstMin_mem _ _ h1)
    exact ⟨p, hmem.1, rfl, Bool.and_elim_left hmem.2⟩
  | none =>
    rw [h1] at h
    dsimp only at h
    cases req with
    | false => simp at h
    | true =>
      rw [if_pos rfl] at h
      cases h2 : pickFirstMin (ps.filter (eligible false)) with
      | none => rw [h2] at h; simp at h
      | some p =>
        rw [h2] at h
        dsimp only at h
        obtain rfl : p.name = name := Option.some.inj h
        have hmem := List.mem_filter.mp (pickFirstMin_mem _ _ h2)
        have hav := hmem.2
        rw [eligible_false_eq] at hav
        exact ⟨p, hmem.1, rfl, hav⟩

lemma generateText_text (callOracle : String → Nat → Option String) (st : AIState)
    (fuel : Nat)
    (hg : ¬(st.grokConfigured = true ∧ st.grokAvailable = true))
    (hm : ¬(st.gemORConfigured = true ∧ st.gemORAvailable = true))
    (hf : 0 < fuel) :
    ∃ s st', generateText callOracle st fuel = (.text s, st') := by
  obtain ⟨k, rfl⟩ : ∃ k, fuel = k + 1 := ⟨fuel - 1, by omega⟩
  simp only [generateText]
  cases hsel : selectProvider (providerList st) false with
  | none => exact ⟨noProviderMsg, st, rfl⟩
  | some name =>
    dsimp only
    obtain ⟨p, hp, hpname, hpavail⟩ := selectProvider_some_mem _ _ _ hsel
    have hnames := providerList_names st p hp
    have hn1 : ¬(name = "openrouter_grok") := by
      intro he
      rw [he] at hpname
      obtain ⟨hc, ha⟩ := hnames.1 hpname
      exact hg ⟨hc, by rw [← ha]; exact hpavail⟩
    have hn2 : ¬(name = "openrouter_gemini") := by
      intro he
      rw [he] at hpname
      obtain ⟨hc, ha⟩ := hnames.2 hpname
      exact hm ⟨hc, by rw [← ha]; exact hpavail⟩
    rw [if_neg hn1, if_neg hn2]
    by_cases h3 : name = "gemini"
    · rw [if_pos h3]
      cases callOracle "gemini" 0 with
      | none => exact ⟨genErrorMsg, st, rfl⟩
      | some s => exact ⟨s, st, rfl⟩
    · rw [if_neg h3]
      by_cases h4 : name = "groq"
      · rw [if_pos h4]
        cases callOracle "groq" 0 with
        | none => exact ⟨genErrorMsg, st, rfl⟩
        | some s => exact ⟨s, st, rfl⟩
      · rw [if_neg h4]
        exact ⟨notImplementedMsg, st, rfl⟩

lemma genGemini_text (respond : Nat → GemEvent) (maxIter : Nat) :
    genGeminiWithTools respond maxIter = .text gemIterMsg := by
  unfold genGeminiWithTools
  cases maxIter with
  | zero => rfl
  | succ k =>
    simp only [geminiIterate]
    cases respond 1 <;> rfl

lemma openrouterGemini_spec (oracle : String → Nat → Nat → GenEvent)
    (gemRespond : Nat → GemEvent) (maxIter : Nat) (st : AIState)
    (hc : st.gemORConfigured = true) :
    (∃ s st', openrouterGeminiCall oracle gemRespond maxIter st = (.text s, st') ∧
      st'.grokConfigured = st.grokConfigured ∧ st'.grokAvailable = st.grokAvailable ∧
      st'.gemORConfigured = true ∧ st'.gemConfigured = st.gemConfigured) ∨
    (∃ st', openrouterGeminiCall oracle gemRespond maxIter st = (.exn exhaustedMsg, st') ∧
      st'.grokConfigured = st.grokConfigured ∧ st'.grokAvailable = st.grokAvailable ∧
      st'.gemORConfigured = true ∧ st'.gemORAvailable = false ∧
      st'.gemConfigured = false) := by
  simp only [openrouterGeminiCall]
  rw [if_neg (by simp [hc])]
  rcases h : orLoop (oracle "openrouter_gemini" st.gemORIdx) st.gemORClients st.gemORIdx
      st.gemORIdx 1 maxIter with ⟨e, idx⟩
  cases e with
  | finalText s => exact Or.inl ⟨s, _, rfl, rfl, rfl, hc, rfl⟩
  | iterEnd => exact Or.inl ⟨gemORIterMsg, _, rfl, rfl, rfl, hc, rfl⟩
  | fullCycle =>
    dsimp only
    by_cases hgem : st.gemConfigured = true
    · rw [if_pos hgem]
      exact Or.inl ⟨gemIterMsg, { st with gemORIdx := idx, gemORAvailable := false },
        by rw [genGemini_text], rfl, rfl, hc, rfl⟩
    · rw [if_neg hgem]
      refine Or.inr ⟨_, rfl, rfl, rfl, hc, rfl, ?_⟩
      simpa using hgem

lemma openrouterGrok_spec (oracle : String → Nat → Nat → GenEvent)
    (gemRespond : Nat → GemEvent) (maxIter : Nat) (st : AIState)
    (hc : st.grokConfigured = true) :
    (∃ s st', openrouterGrokCall oracle gemRespond maxIter st = (.text s, st')) ∨
    (∃ m st', openrouterGrokCall oracle gemRespond maxIter st = (.exn m, st') ∧
      ¬(st'.grokConfigured = true ∧ st'.grokAvailable = true) ∧
      ¬(st'.gemORConfigured = true ∧ st'.gemORAvailable = true)) := by
  simp only [openrouterGrokCall]
  rw [if_neg (by simp [hc])]
  rcases h : orLoop (oracle "openrouter_grok" st.grokIdx) st.grokClients st.grokIdx
      st.grokIdx 1 maxIter with ⟨e, idx⟩
  cases e with
  | finalText s => exact Or.inl ⟨s, _, rfl⟩
  | iterEnd => exact Or.inl ⟨grokIterMsg, _, rfl⟩
  | fullCycle =>
    dsimp only
    by_cases hgo : st.gemORConfigured = true
    · rw [if_pos hgo]
      rcases openrouterGemini_spec oracle gemRespond maxIter
          { st with grokIdx := idx, grokAvailable := false } hgo with
        ⟨s, st2, heq, -⟩ | ⟨st2, heq, hg1, hg2, hg3, hg4, -⟩
      · rw [heq]
        exact Or.inl ⟨s, st2, rfl⟩
      · rw [heq]
        dsimp only
        rcases openrouterGemini_spec oracle gemRespond maxIter st2 hg3 with
          ⟨s, st3, heq2, -⟩ | ⟨st3, heq2, hh1, hh2, hh3, hh4, -⟩
        · rw [heq2]
          exact Or.inl ⟨s, st3, rfl⟩
        · rw [heq2]
          refine Or.inr ⟨exhaustedMsg, st3, rfl, ?_, ?_⟩
          · intro hcon
            rw [hh2, hg2] at hcon
            simp at hcon
          · intro hcon
            rw [hh4] at hcon
            simp at hcon
    · rw [if_neg hgo]
      refine Or.inr ⟨exhaustedMsg, _, rfl, ?_, ?_⟩
      · intro hcon
        simp at hcon
      · intro hcon
        exact hgo hcon.1

lemma openaiLoop_text (respond : Nat → OpenAIEvent)
    (callOracle : String → Nat → Option String) (fuel : Nat) (st : AIState)
    (hg : ¬(st.grokConfigured = true ∧ st.grokAvailable = true))
    (hm : ¬(st.gemORConfigured = true ∧ st.gemORAvailable = true))
    (hf : 0 < fuel) :
    ∀ iter left, ∃ s st', openaiLoop respond callOracle fuel st iter left = (.text s, st') := by
  intro iter left
  induction left generalizing iter with
  | zero => exact ⟨openaiIterMsg, st, rfl⟩
  | succ k ih =>
    simp only [openaiLoop]
    cases respond iter with
    | toolCall => exact ih (iter + 1)
    | final s => exact ⟨s, st, rfl⟩
    | otherError => exact ⟨openaiIterMsg, st, rfl⟩
    | quotaError =>
      dsimp only
      cases hsel : selectProvider (providerList { st with openaiAvailable := false }) false with
      | none => exact ⟨openaiQuotaMsg, _, rfl⟩
      | some fb =>
        dsimp only
        by_cases hfb : fb ≠ "openai"
        · rw [if_pos hfb]
          exact generateText_text callOracle _ fuel hg hm hf
        · rw [if_neg hfb]
          exact ⟨openaiQuotaMsg, _, rfl⟩

/-- The generation entry point always returns text: every reachable failure
path either degrades inside the tool loops or reaches `generate_text` in a
state where neither OpenRouter provider is selectable, so the recursive
fallback of `generate_text` is never taken. -/
lemma genEntry_returns_text (oracle : String → Nat → Nat → GenEvent)
    (gemRespond : Nat → GemEvent) (oaRespond : Nat → OpenAIEvent)
    (callOracle : String → Nat → Option String) (maxIter fuel : Nat) (st : AIState)
    (hf : 0 < fuel) :
    ∃ s st', generateWithActiveSearch oracle gemRespond oaRespond callOracle
      maxIter fuel st = (.text s, st') := by
  simp only [generateWithActiveSearch]
  by_cases h1 : (st.grokConfigured && st.grokAvailable) = true
  · rw [if_pos h1]
    have hc : st.grokConfigured = true := Bool.and_elim_left h1
    rcases openrouterGrok_spec oracle gemRespond maxIter st hc with
      ⟨s, st', heq⟩ | ⟨m, st', heq, hg', hm'⟩
    · rw [heq]
      exact ⟨s, st', rfl⟩
    · rw [heq]
      exact generateText_text callOracle st' fuel hg' hm' hf
  · rw [if_neg h1]
    by_cases h2 : (st.gemORConfigured && st.gemORAvailable) = true
    · rw [if_pos h2]
      have hc : st.gemORConfigured = true := Bool.and_elim_left h2
      rcases openrouterGemini_spec oracle gemRespond maxIter st hc with
        ⟨s, st', heq, -⟩ | ⟨st', heq, hf1, hf2, hf3, hf4, -⟩
      · rw [heq]
        exact ⟨s, st', rfl⟩
      · rw [heq]
        refine generateText_text callOracle st' fuel ?_ ?_ hf
        · intro hcon
          rw [hf1, hf2] at hcon
          exact h1 (by simp [hcon.1, hcon.2])
        · intro hcon
          rw [hf4] at hcon
          simp at hcon
    · rw [if_neg h2]
      have hg : ¬(st.grokConfigured = true ∧ st.grokAvailable = true) := fun hcon =>
        h1 (by simp [hcon.1, hcon.2])
      have hm : ¬(st.gemORConfigured = true ∧ st.gemORAvailable = true) := fun hcon =>
        h2 (by simp [hcon.1, hcon.2])
      cases hsel : selectProvider (providerList st) true with
      | none => exact generateText_text callOracle st fuel hg hm hf
      | some name =>
        dsimp only
        by_cases h3 : name = "gemini"
        · rw [if_pos h3]
          exact ⟨gemIterMsg, st, by rw [genGemini_text]⟩
        · rw [if_neg h3]
          by_cases h4 : name = "openai"
          · rw [if_pos h4]
            obtain ⟨s, st', heq⟩ :=
              openaiLoop_text oaRespond callOracle fuel st hg hm hf 1 maxIter
            rw [show openaiWithTools oaRespond callOracle fuel maxIter st =
              (.text s, st') from heq]
            exact ⟨s, st', rfl⟩
          · rw [if_neg h4]
            obtain ⟨s, st', heq⟩ := generateText_text callOracle st fuel hg hm hf
            rw [heq]
            exact ⟨s, st', rfl⟩

/-- C4: for every response pattern, every provider configuration, every
iteration cap and every positive recursion budget, one call to
`generate_with_active_search` returns a string (final text or a degraded
message) and never lets an exception out. -/
theorem C4_generation_terminates (oracle : String → Nat → Nat → GenEvent)
    (gemRespond : Nat → GemEvent) (oaRespond : Nat → OpenAIEvent)
    (callOracle : String → Nat → Option String) (maxIter fuel : Nat) (st : AIState)
    (hf : 0 < fuel) :
    ∃ s st', generateWithActiveSearch oracle gemRespond oaRespond callOracle
      maxIter fuel st = (.text s, st') :=
  genEntry_returns_text oracle gemRespond oaRespond callOracle maxIter fuel st hf

/-- Witness for C4 at a concrete state and oracle. -/
theorem C4_generation_witness :
    ∃ s st', generateWithActiveSearch (fun _ _ _ => GenEvent.final "done")
      (fun _ => GemEvent.sendError) (fun _ => OpenAIEvent.otherError)
      (fun _ _ => none) 3 1 stC3 = (.text s, st') :=
  C4_generation_terminates (fun _ _ _ => GenEvent.final "done")
    (fun _ => GemEvent.sendError) (fun _ => OpenAIEvent.otherError)
    (fun _ _ => none) 3 1 stC3 (by decide)

end AIManager

namespace Orchestrator

lemma collectWeb_exn_absorb (w₁ w₂ : List Outcome) :
    collectWeb (w₁ ++ .exn :: w₂) = collectWeb (w₁ ++ w₂) := by
  simp [collectWeb_eq, webContribution]

lemma collectSocial_exn_absorb (s₁ s₂ : List Outcome) :
    collectSocial (s₁ ++ .exn :: s₂) = collectSocial (s₁ ++ s₂) := by
  simp [collectSocial_eq, youtubeContribution, socialContribution]

lemma executeMassiveRealSearch_exn_absorb (query : String) (ws : Outcome)
    (w₁ w₂ s₁ s₂ : List Outcome) :
    executeMassiveRealSearch query ⟨ws, w₁ ++ .exn :: w₂, s₁ ++ .exn :: s₂⟩ =
      executeMassiveRealSearch query ⟨ws, w₁ ++ w₂, s₁ ++ s₂⟩ := by
  have h1 : fanWeb ⟨ws, w₁ ++ .exn :: w₂, s₁ ++ .exn :: s₂⟩ =
      fanWeb ⟨ws, w₁ ++ w₂, s₁ ++ s₂⟩ := by
    simp [fanWeb, collectWeb_exn_absorb]
  have h2 : fanYoutube ⟨ws, w₁ ++ .exn :: w₂, s₁ ++ .exn :: s₂⟩ =
      fanYoutube ⟨ws, w₁ ++ w₂, s₁ ++ s₂⟩ := by
    simp [fanYoutube, collectSocial_exn_absorb]
  have h3 : fanSocial ⟨ws, w₁ ++ .exn :: w₂, s₁ ++ .exn :: s₂⟩ =
      fanSocial ⟨ws, w₁ ++ w₂, s₁ ++ s₂⟩ := by
    simp [fanSocial, collectSocial_exn_absorb]
  simp [executeMassiveRealSearch, allFanResults, realResults, h1, h2, h3]

end Orchestrator

namespace AIManager

/-- C9: adapter- and credential-level failures never cross into the caller as
raw errors — an adapter task that raises contributes nothing and leaves the
search call's aggregated result unchanged, and the generation entry point
returns a string for every failure pattern. -/
theorem C9_no_raw_errors :
    (∀ (query : String) (ws : Orchestrator.Outcome)
      (w₁ w₂ s₁ s₂ : List Orchestrator.Outcome),
      Orchestrator.executeMassiveRealSearch query
        ⟨ws, w₁ ++ .exn :: w₂, s₁ ++ .exn :: s₂⟩ =
      Orchestrator.executeMassiveRealSearch query ⟨ws, w₁ ++ w₂, s₁ ++ s₂⟩) ∧
    (∀ (oracle : String → Nat → Nat → GenEvent) (gemRespond : Nat → GemEvent)
      (oaRespond : Nat → OpenAIEvent) (callOracle : String → Nat → Option String)
      (maxIter fuel : Nat) (st : AIState), 0 < fuel →
      ∃ s st', generateWithActiveSearch oracle gemRespond oaRespond callOracle
        maxIter fuel st = (.text s, st')) := by
  refine ⟨Orchestrator.executeMassiveRealSearch_exn_absorb, ?_⟩
  intro oracle gemRespond oaRespond callOracle maxIter fuel st hf
  exact genEntry_returns_text oracle gemRespond oaRespond callOracle maxIter fuel st hf

/-- Witness for C9 at a concrete state and oracle (all calls rate-limited,
quota errors from OpenAI, no working credential). -/
theorem C9_no_raw_errors_witness :
    ∃ s st', generateWithActiveSearch (fun _ _ _ => GenEvent.rateLimited)
      (fun _ => GemEvent.sendError) (fun _ => OpenAIEvent.quotaError)
      (fun _ _ => none) 3 2 stC3 = (.text s, st') :=
  C9_no_raw_errors.2 (fun _ _ _ => GenEvent.rateLimited)
    (fun _ => GemEvent.sendError) (fun _ => OpenAIEvent.quotaError)
    (fun _ _ => none) 3 2 stC3 (by decide)

end AIManager
